import Mathlib

/-!
Verification development for the Medical-Research-Agent repository.

The definitions below are shallow embeddings of the pure computational parts
of `src/medical-core.ts` and `src/medical-cli.ts`.  Numbers that are IEEE
doubles in the source (confidence scores in `[0,1]`, additive verification
weights) are modelled as rationals; for the small decimal constants involved
the comparisons performed by the code agree with exact arithmetic.
JavaScript's in-place `Array.prototype.sort` (stable since ES2019, and this
package targets Node 22) is modelled by the stable `List.insertionSort`, with
the mutation made explicit by returning the post-call array state.
-/

namespace MedicalResearch

/-- Substring test on character lists, modelling JavaScript
`String.prototype.includes` (true whenever the needle occurs contiguously,
and true for the empty needle). -/
def charListIncludes : List Char → List Char → Bool
  | hay, needle =>
    needle.isPrefixOf hay ||
      match hay with
      | [] => false
      | _ :: t => charListIncludes t needle

/-- JavaScript `hay.includes(needle)`. -/
def strIncludes (hay needle : String) : Bool :=
  charListIncludes hay.data needle.data

/-- Accumulator-style splitter on a single space character. -/
def splitOnSpaceAux : List Char → List Char → List String
  | [], acc => [String.mk acc.reverse]
  | c :: cs, acc =>
    if c = ' ' then String.mk acc.reverse :: splitOnSpaceAux cs []
    else splitOnSpaceAux cs (c :: acc)

/-- JavaScript `s.split(' ')`: splits on each single space, keeping empty
fragments, and always returns at least one element. -/
def splitOnSpace (s : String) : List String :=
  splitOnSpaceAux s.data []

theorem splitOnSpaceAux_ne_nil : ∀ (cs : List Char) (acc : List Char),
    splitOnSpaceAux cs acc ≠ []
  | [], _ => by simp [splitOnSpaceAux]
  | c :: cs, acc => by
    simp only [splitOnSpaceAux]
    split
    · simp
    · exact splitOnSpaceAux_ne_nil cs (c :: acc)

theorem splitOnSpace_ne_nil (s : String) : splitOnSpace s ≠ [] :=
  splitOnSpaceAux_ne_nil s.data []

/-- JavaScript `s.toLowerCase()` (character-wise, as for the ASCII text the
code handles). -/
def strToLower (s : String) : String :=
  String.mk (s.data.map Char.toLower)

/-- JavaScript `s.toUpperCase()`. -/
def strToUpper (s : String) : String :=
  String.mk (s.data.map Char.toUpper)

/-- JavaScript `s.trim()`: strips leading and trailing whitespace. -/
def strTrim (s : String) : String :=
  String.mk (((s.data.dropWhile Char.isWhitespace).reverse.dropWhile
    Char.isWhitespace).reverse)

/-- JavaScript `Math.ceil(n * 0.7)` for the (small) token counts the code
computes it on; modelled with exact arithmetic as `⌈7n/10⌉`. -/
def ceil7of10 (n : Nat) : Nat := (7 * n + 9) / 10

/-- One extracted candidate record (`MedicalExtraction` in
`medical-schemas.ts`).  `source_type` is a plain string at runtime (the code
even assigns the out-of-enum value `"institutional_profile"`). -/
structure MedicalExtraction where
  doctor_name : String
  specialty : String
  location : String
  workplace : String
  confidence : ℚ
  source_type : String
deriving DecidableEq, Repr

/-- The value constructed and returned by `aggregateDoctorInfo`
(`sources`/`last_updated` are added afterwards by `researchDoctor`). -/
structure DoctorInfo where
  name : String
  specialty : String
  workplace : String
  location : String
  confidence_score : ℚ
  extractions : List MedicalExtraction
deriving DecidableEq, Repr

/-- The comparator `(a, b) => b.confidence - a.confidence` used by
`aggregateDoctorInfo`: `a` is placed no later than `b` exactly when
`b.confidence ≤ a.confidence`. -/
def confGE (a b : MedicalExtraction) : Prop :=
  b.confidence ≤ a.confidence

instance : DecidableRel confGE :=
  fun a b => inferInstanceAs (Decidable (b.confidence ≤ a.confidence))

instance : IsTotal MedicalExtraction confGE :=
  ⟨fun a b => le_total b.confidence a.confidence⟩

instance : IsTrans MedicalExtraction confGE :=
  ⟨fun _ _ _ h₁ h₂ => le_trans h₂ h₁⟩

/-- The in-place `extractions.sort((a, b) => b.confidence - a.confidence)`:
a stable sort by descending confidence (`Array.prototype.sort` is stable,
and `insertionSort confGE` places an earlier element before a later one
whenever their confidences tie). -/
def sortByConfDesc (l : List MedicalExtraction) : List MedicalExtraction :=
  l.insertionSort confGE

/-- Whether a workplace/location string counts as absent for the
post-processing fallback in `aggregateDoctorInfo`. -/
def fieldMissing (s : String) : Bool :=
  s == "Not found" || s == "Not specified"

/-- `aggregateDoctorInfo` from `medical-core.ts`, with the in-place mutation
of the caller's array made explicit: the first component is the contents of
the caller's array after the call (sorted in place unless the list was empty,
in which case the function returns before sorting), the second the returned
`DoctorInfo`. -/
def aggregateDoctorInfoSt (extractions : List MedicalExtraction) :
    List MedicalExtraction × DoctorInfo :=
  match extractions with
  | [] =>
    ([], { name := "Not found", specialty := "Not specified",
           workplace := "Not found", location := "Not found",
           confidence_score := 0, extractions := [] })
  | e :: es =>
    let sorted := sortByConfDesc (e :: es)
    let best := sorted.headD e
    let workplace :=
      if fieldMissing best.workplace then
        match sorted.find? (fun x => !fieldMissing x.workplace) with
        | some other => other.workplace
        | none => best.workplace
      else best.workplace
    let location :=
      if fieldMissing best.location then
        match sorted.find? (fun x => !fieldMissing x.location) with
        | some other => other.location
        | none => best.location
      else best.location
    (sorted,
     { name := best.doctor_name, specialty := best.specialty,
       workplace := workplace, location := location,
       confidence_score := best.confidence, extractions := sorted })

/-- The `DoctorInfo` returned by `aggregateDoctorInfo`. -/
def aggregateDoctorInfo (extractions : List MedicalExtraction) : DoctorInfo :=
  (aggregateDoctorInfoSt extractions).2

theorem headD_eq_headD {α : Type} {l : List α} (h : l ≠ []) (d₁ d₂ : α) :
    l.headD d₁ = l.headD d₂ := by
  cases l with
  | nil => exact absurd rfl h
  | cons x xs => rfl

theorem sortByConfDesc_perm (l : List MedicalExtraction) : (sortByConfDesc l).Perm l :=
  List.perm_insertionSort confGE l

theorem sortByConfDesc_sorted (l : List MedicalExtraction) :
    (sortByConfDesc l).Sorted confGE :=
  List.sorted_insertionSort confGE l

theorem sortByConfDesc_ne_nil {l : List MedicalExtraction} (h : l ≠ []) :
    sortByConfDesc l ≠ [] := by
  intro hs
  apply h
  have hlen := (sortByConfDesc_perm l).length_eq
  rw [hs] at hlen
  exact List.eq_nil_of_length_eq_zero hlen.symm

/-- The strict-or-equal version of `confGE`, antisymmetric, used to show that
a confidence-sorted list with pairwise-distinct confidences is unique. -/
def confGT (a b : MedicalExtraction) : Prop :=
  b.confidence < a.confidence ∨ a = b

instance : IsAntisymm MedicalExtraction confGT := by
  constructor
  intro a b hab hba
  rcases hab with h₁ | h₁
  · rcases hba with h₂ | h₂
    · exact absurd h₂ (lt_asymm h₁)
    · exact h₂.symm
  · exact h₁

theorem sorted_confGT_of_nodup {s l : List MedicalExtraction} (hsp : s.Perm l)
    (hnd : (l.map MedicalExtraction.confidence).Nodup) (hsorted : s.Sorted confGE) :
    s.Sorted confGT := by
  have hndm : (s.map MedicalExtraction.confidence).Nodup := ((hsp.map _).nodup_iff).mpr hnd
  have hnePair : s.Pairwise (fun a b => a.confidence ≠ b.confidence) :=
    List.pairwise_map.mp hndm
  exact (List.Pairwise.and hsorted hnePair).imp
    (fun h => Or.inl (lt_of_le_of_ne h.1 (Ne.symm h.2)))

theorem sortByConfDesc_eq_of_perm {l₁ l₂ : List MedicalExtraction} (hp : l₁.Perm l₂)
    (hnd : (l₁.map MedicalExtraction.confidence).Nodup) :
    sortByConfDesc l₁ = sortByConfDesc l₂ := by
  have hp₁ := sortByConfDesc_perm l₁
  have hp₂ := sortByConfDesc_perm l₂
  exact List.eq_of_perm_of_sorted (hp₁.trans (hp.trans hp₂.symm))
    (sorted_confGT_of_nodup hp₁ hnd (sortByConfDesc_sorted l₁))
    (sorted_confGT_of_nodup (hp₂.trans hp.symm) hnd (sortByConfDesc_sorted l₂))

theorem aggregate_eq_of_sortEq {l₁ l₂ : List MedicalExtraction} (h₁ : l₁ ≠ [])
    (h₂ : l₂ ≠ []) (hsort : sortByConfDesc l₁ = sortByConfDesc l₂) :
    aggregateDoctorInfo l₁ = aggregateDoctorInfo l₂ := by
  cases l₁ with
  | nil => exact absurd rfl h₁
  | cons a as =>
    cases l₂ with
    | nil => exact absurd rfl h₂
    | cons b bs =>
      simp only [aggregateDoctorInfo, aggregateDoctorInfoSt]
      rw [hsort, headD_eq_headD (sortByConfDesc_ne_nil h₂) a b]

/-- C2: with zero surviving extractions the aggregator returns confidence 0
and the explicit not-found sentinels in every field; being a total function
of its input it neither throws nor leaves a field undefined. -/
theorem aggregate_empty_returns_sentinels :
    aggregateDoctorInfo [] =
      { name := "Not found", specialty := "Not specified",
        workplace := "Not found", location := "Not found",
        confidence_score := 0, extractions := [] } := rfl

/-- C1 counterexample: two extractions with equal confidence but different
workplaces; swapping them (a permutation) changes the aggregated record,
because the stable sort breaks the confidence tie by input order. -/
theorem aggregate_perm_counterexample :
    List.Perm
      [({ doctor_name := "Jane Doe", specialty := "Oncology", location := "Boston, MA",
          workplace := "Hospital A", confidence := 9/10,
          source_type := "news_article" } : MedicalExtraction),
       { doctor_name := "Jane Doe", specialty := "Oncology", location := "Boston, MA",
         workplace := "Hospital B", confidence := 9/10,
         source_type := "medical_directory" }]
      [{ doctor_name := "Jane Doe", specialty := "Oncology", location := "Boston, MA",
         workplace := "Hospital B", confidence := 9/10,
         source_type := "medical_directory" },
       { doctor_name := "Jane Doe", specialty := "Oncology", location := "Boston, MA",
         workplace := "Hospital A", confidence := 9/10,
         source_type := "news_article" }] ∧
    aggregateDoctorInfo
      [{ doctor_name := "Jane Doe", specialty := "Oncology", location := "Boston, MA",
         workplace := "Hospital A", confidence := 9/10,
         source_type := "news_article" },
       { doctor_name := "Jane Doe", specialty := "Oncology", location := "Boston, MA",
         workplace := "Hospital B", confidence := 9/10,
         source_type := "medical_directory" }] ≠
    aggregateDoctorInfo
      [{ doctor_name := "Jane Doe", specialty := "Oncology", location := "Boston, MA",
         workplace := "Hospital B", confidence := 9/10,
         source_type := "medical_directory" },
       { doctor_name := "Jane Doe", specialty := "Oncology", location := "Boston, MA",
         workplace := "Hospital A", confidence := 9/10,
         source_type := "news_article" }] := by
  refine ⟨List.Perm.swap _ _ _, ?_⟩
  with_unfolding_all decide

/-- C1 amended: aggregation is permutation-invariant whenever the candidate
confidences are pairwise distinct; on confidence ties the stable in-place sort
keeps input order, so permuting tied candidates can change the result. -/
theorem aggregate_perm_invariant_of_distinct_conf
    (l₁ l₂ : List MedicalExtraction) (hp : l₁.Perm l₂)
    (hnd : (l₁.map MedicalExtraction.confidence).Nodup) :
    aggregateDoctorInfo l₁ = aggregateDoctorInfo l₂ := by
  by_cases h : l₁ = []
  · subst h
    rw [← hp.nil_eq]
  · have h₂ : l₂ ≠ [] := fun he => h (he ▸ hp).eq_nil
    exact aggregate_eq_of_sortEq h h₂ (sortByConfDesc_eq_of_perm hp hnd)

/-- Witness for the amended C1 at a concrete pair of distinct-confidence
extractions. -/
theorem aggregate_perm_invariant_of_distinct_conf_witness :
    aggregateDoctorInfo
      [{ doctor_name := "Jane Doe", specialty := "Oncology", location := "Boston, MA",
         workplace := "Hospital A", confidence := 9/10,
         source_type := "news_article" },
       { doctor_name := "Jane Doe", specialty := "Oncology", location := "Boston, MA",
         workplace := "Hospital B", confidence := 4/5,
         source_type := "medical_directory" }] =
    aggregateDoctorInfo
      [{ doctor_name := "Jane Doe", specialty := "Oncology", location := "Boston, MA",
         workplace := "Hospital B", confidence := 4/5,
         source_type := "medical_directory" },
       { doctor_name := "Jane Doe", specialty := "Oncology", location := "Boston, MA",
         workplace := "Hospital A", confidence := 9/10,
         source_type := "news_article" }] :=
  aggregate_perm_invariant_of_distinct_conf _ _ (List.Perm.swap _ _ _)
    (by with_unfolding_all decide)

/-- Modelled from the spec (§4.5), for comparison with the code: the
per-candidate combined score `candidate.confidence × source-kind weight`.
`aggregateDoctorInfo` receives no query hints, so the spec's "verification
bonus for exact query-hint matches" contributes equally (zero) to every
candidate and is omitted. -/
def specCombinedScore (w : String → ℚ) (e : MedicalExtraction) : ℚ :=
  e.confidence * w e.source_type

/-- Modelled from the spec (§4.5): the top-ranked candidate by combined
score, with ties broken by a fixed deterministic rule (earliest top-scoring
candidate wins). -/
def specTopRanked (w : String → ℚ) : List MedicalExtraction → Option MedicalExtraction
  | [] => none
  | e :: es =>
    some (es.foldl
      (fun acc x => if specCombinedScore w acc < specCombinedScore w x then x else acc) e)

/-- Modelled from the spec (§4.5): the primary workplace is the workplace of
the top-ranked candidate among those with a non-unknown workplace. -/
def specPrimaryWorkplace (w : String → ℚ) (l : List MedicalExtraction) : Option String :=
  (specTopRanked w (l.filter (fun e => !fieldMissing e.workplace))).map
    (fun e => e.workplace)

/-- C5 counterexample: no source-kind weighting in which an authoritative
directory outranks a news article can describe `aggregateDoctorInfo`.  With
two equal-confidence candidates, a news article first and a directory second,
the spec model must pick the directory's workplace while the code keeps the
news article's (raw confidence tie, stable sort, input order). -/
theorem aggregate_no_source_kind_weighting :
    ¬ ∃ w : String → ℚ, w "news_article" < w "medical_directory" ∧
      ∀ l : List MedicalExtraction, l ≠ [] →
        some (aggregateDoctorInfo l).workplace = specPrimaryWorkplace w l := by
  rintro ⟨w, hw, hall⟩
  have hcode : (aggregateDoctorInfo
      [{ doctor_name := "Jane Doe", specialty := "Oncology", location := "Boston, MA",
         workplace := "Hospital A", confidence := 9/10,
         source_type := "news_article" },
       { doctor_name := "Jane Doe", specialty := "Oncology", location := "Boston, MA",
         workplace := "Hospital B", confidence := 9/10,
         source_type := "medical_directory" }]).workplace = "Hospital A" := by
    with_unfolding_all decide
  have hspecEq := hall
    [{ doctor_name := "Jane Doe", specialty := "Oncology", location := "Boston, MA",
       workplace := "Hospital A", confidence := 9/10,
       source_type := "news_article" },
     { doctor_name := "Jane Doe", specialty := "Oncology", location := "Boston, MA",
       workplace := "Hospital B", confidence := 9/10,
       source_type := "medical_directory" }] (List.cons_ne_nil _ _)
  rw [hcode] at hspecEq
  have hlt : specCombinedScore w
      { doctor_name := "Jane Doe", specialty := "Oncology", location := "Boston, MA",
        workplace := "Hospital A", confidence := 9/10,
        source_type := "news_article" } <
      specCombinedScore w
      { doctor_name := "Jane Doe", specialty := "Oncology", location := "Boston, MA",
        workplace := "Hospital B", confidence := 9/10,
        source_type := "medical_directory" } := by
    simp only [specCombinedScore]
    exact mul_lt_mul_of_pos_left hw (by norm_num)
  have hfilt : List.filter (fun e => !fieldMissing e.workplace)
      [({ doctor_name := "Jane Doe", specialty := "Oncology", location := "Boston, MA",
          workplace := "Hospital A", confidence := 9/10,
          source_type := "news_article" } : MedicalExtraction),
       { doctor_name := "Jane Doe", specialty := "Oncology", location := "Boston, MA",
         workplace := "Hospital B", confidence := 9/10,
         source_type := "medical_directory" }] =
      [{ doctor_name := "Jane Doe", specialty := "Oncology", location := "Boston, MA",
         workplace := "Hospital A", confidence := 9/10,
         source_type := "news_article" },
       { doctor_name := "Jane Doe", specialty := "Oncology", location := "Boston, MA",
         workplace := "Hospital B", confidence := 9/10,
         source_type := "medical_directory" }] := by
    with_unfolding_all decide
  rw [show specPrimaryWorkplace w
      [{ doctor_name := "Jane Doe", specialty := "Oncology", location := "Boston, MA",
         workplace := "Hospital A", confidence := 9/10,
         source_type := "news_article" },
       { doctor_name := "Jane Doe", specialty := "Oncology", location := "Boston, MA",
         workplace := "Hospital B", confidence := 9/10,
         source_type := "medical_directory" }] = some "Hospital B" by
    simp only [specPrimaryWorkplace, hfilt, specTopRanked, List.foldl_cons, List.foldl_nil]
    rw [if_pos hlt]
    rfl] at hspecEq
  simp at hspecEq

/-- C5 amended: for every non-empty extraction list the aggregator ranks by
raw candidate confidence only (no source-kind weight, no verification
bonus): the primary name, specialty and confidence all come from a single
maximal-confidence extraction. -/
theorem aggregate_ranks_by_raw_confidence (l : List MedicalExtraction) (h : l ≠ []) :
    ∃ e ∈ l, (∀ e' ∈ l, e'.confidence ≤ e.confidence) ∧
      (aggregateDoctorInfo l).name = e.doctor_name ∧
      (aggregateDoctorInfo l).specialty = e.specialty ∧
      (aggregateDoctorInfo l).confidence_score = e.confidence := by
  cases l with
  | nil => exact absurd rfl h
  | cons a as =>
    cases hs : sortByConfDesc (a :: as) with
    | nil => exact absurd hs (sortByConfDesc_ne_nil (List.cons_ne_nil a as))
    | cons b bs =>
      refine ⟨b, ?_, ?_, ?_, ?_, ?_⟩
      · have hb : b ∈ sortByConfDesc (a :: as) := by
          rw [hs]; exact List.mem_cons_self _ _
        exact (sortByConfDesc_perm _).subset hb
      · intro e' he'
        have hmem : e' ∈ sortByConfDesc (a :: as) :=
          ((sortByConfDesc_perm _).mem_iff).mpr he'
        rw [hs] at hmem
        rcases List.mem_cons.mp hmem with rfl | hmem
        · exact le_refl _
        · have hp := sortByConfDesc_sorted (a :: as)
          rw [hs] at hp
          exact (List.pairwise_cons.mp hp).1 e' hmem
      · simp only [aggregateDoctorInfo, aggregateDoctorInfoSt, hs, List.headD_cons]
      · simp only [aggregateDoctorInfo, aggregateDoctorInfoSt, hs, List.headD_cons]
      · simp only [aggregateDoctorInfo, aggregateDoctorInfoSt, hs, List.headD_cons]

/-- Witness for the amended C5 at a concrete two-element list. -/
theorem aggregate_ranks_by_raw_confidence_witness :
    ∃ e ∈ [({ doctor_name := "Jane Doe", specialty := "Oncology",
              location := "Boston, MA", workplace := "Hospital A",
              confidence := 1/2, source_type := "news_article" } : MedicalExtraction),
            { doctor_name := "Jane Q. Doe", specialty := "Radiation Oncology",
              location := "Boston, MA", workplace := "Hospital B",
              confidence := 1, source_type := "medical_directory" }],
      (∀ e' ∈ [({ doctor_name := "Jane Doe", specialty := "Oncology",
                  location := "Boston, MA", workplace := "Hospital A",
                  confidence := 1/2, source_type := "news_article" } : MedicalExtraction),
                { doctor_name := "Jane Q. Doe", specialty := "Radiation Oncology",
                  location := "Boston, MA", workplace := "Hospital B",
                  confidence := 1, source_type := "medical_directory" }],
         e'.confidence ≤ e.confidence) ∧
      (aggregateDoctorInfo
        [{ doctor_name := "Jane Doe", specialty := "Oncology",
           location := "Boston, MA", workplace := "Hospital A",
           confidence := 1/2, source_type := "news_article" },
         { doctor_name := "Jane Q. Doe", specialty := "Radiation Oncology",
           location := "Boston, MA", workplace := "Hospital B",
           confidence := 1, source_type := "medical_directory" }]).name = e.doctor_name ∧
      (aggregateDoctorInfo
        [{ doctor_name := "Jane Doe", specialty := "Oncology",
           location := "Boston, MA", workplace := "Hospital A",
           confidence := 1/2, source_type := "news_article" },
         { doctor_name := "Jane Q. Doe", specialty := "Radiation Oncology",
           location := "Boston, MA", workplace := "Hospital B",
           confidence := 1, source_type := "medical_directory" }]).specialty = e.specialty ∧
      (aggregateDoctorInfo
        [{ doctor_name := "Jane Doe", specialty := "Oncology",
           location := "Boston, MA", workplace := "Hospital A",
           confidence := 1/2, source_type := "news_article" },
         { doctor_name := "Jane Q. Doe", specialty := "Radiation Oncology",
           location := "Boston, MA", workplace := "Hospital B",
           confidence := 1, source_type := "medical_directory" }]).confidence_score =
        e.confidence :=
  aggregate_ranks_by_raw_confidence _ (List.cons_ne_nil _ _)

/-- C10: `aggregateDoctorInfo` mutates its argument.  In the state-passing
model, for every non-empty input the caller's array after the call is a
permutation of the input sorted in place into descending confidence order,
and the returned record's `extractions` field is exactly that post-call
array; moreover there are inputs (any unsorted one, witnessed concretely)
on which the array really changes. -/
theorem aggregate_mutates_argument_in_place :
    (∀ l : List MedicalExtraction, l ≠ [] →
       (aggregateDoctorInfoSt l).1.Perm l ∧
       (aggregateDoctorInfoSt l).1.Sorted confGE ∧
       ((aggregateDoctorInfoSt l).2).extractions = (aggregateDoctorInfoSt l).1) ∧
    (aggregateDoctorInfoSt
      [{ doctor_name := "Jane Doe", specialty := "Oncology", location := "Boston, MA",
         workplace := "Hospital A", confidence := 1/2, source_type := "news_article" },
       { doctor_name := "Jane Q. Doe", specialty := "Radiation Oncology",
         location := "Boston, MA", workplace := "Hospital B", confidence := 1,
         source_type := "medical_directory" }]).1 ≠
      [{ doctor_name := "Jane Doe", specialty := "Oncology", location := "Boston, MA",
         workplace := "Hospital A", confidence := 1/2, source_type := "news_article" },
       { doctor_name := "Jane Q. Doe", specialty := "Radiation Oncology",
         location := "Boston, MA", workplace := "Hospital B", confidence := 1,
         source_type := "medical_directory" }] := by
  constructor
  · intro l hl
    cases l with
    | nil => exact absurd rfl hl
    | cons a as =>
      refine ⟨?_, ?_, ?_⟩
      · exact sortByConfDesc_perm (a :: as)
      · exact sortByConfDesc_sorted (a :: as)
      · rfl
  · with_unfolding_all decide

/-- Witness for C10 at a concrete non-empty input. -/
theorem aggregate_mutates_argument_in_place_witness :
    (aggregateDoctorInfoSt
      [({ doctor_name := "Jane Doe", specialty := "Oncology", location := "Boston, MA",
          workplace := "Hospital A", confidence := 1/2,
          source_type := "news_article" } : MedicalExtraction)]).1.Perm
      [{ doctor_name := "Jane Doe", specialty := "Oncology", location := "Boston, MA",
         workplace := "Hospital A", confidence := 1/2,
         source_type := "news_article" }] ∧
    (aggregateDoctorInfoSt
      [({ doctor_name := "Jane Doe", specialty := "Oncology", location := "Boston, MA",
          workplace := "Hospital A", confidence := 1/2,
          source_type := "news_article" } : MedicalExtraction)]).1.Sorted confGE ∧
    ((aggregateDoctorInfoSt
      [({ doctor_name := "Jane Doe", specialty := "Oncology", location := "Boston, MA",
          workplace := "Hospital A", confidence := 1/2,
          source_type := "news_article" } : MedicalExtraction)]).2).extractions =
      (aggregateDoctorInfoSt
        [({ doctor_name := "Jane Doe", specialty := "Oncology", location := "Boston, MA",
            workplace := "Hospital A", confidence := 1/2,
            source_type := "news_article" } : MedicalExtraction)]).1 :=
  aggregate_mutates_argument_in_place.1 _ (List.cons_ne_nil _ _)

/-- One raw search hit (`GoogleSearchResult` in `medical-core.ts`). -/
structure SearchResult where
  title : String
  link : String
  snippet : String
deriving DecidableEq, Repr

/-- The institution-hint block of `verifyPersonMatch`: strong token overlap
`+0.25`, partial overlap `+0.1`, no overlap `-0.2`; skipped when the
institution argument is absent or empty (JavaScript falsy). -/
def instDelta (resultText : String) (institution : Option String) : ℚ × List String :=
  match institution with
  | none => (0, [])
  | some inst =>
    if inst = "" then (0, [])
    else
      let institutionWords := splitOnSpace (strToLower inst)
      let institutionMatches := institutionWords.filter (fun word =>
        decide (2 < word.length) && strIncludes resultText word)
      if ceil7of10 institutionWords.length ≤ institutionMatches.length then
        (25/100, ["Strong institution match: " ++ inst])
      else if 0 < institutionMatches.length then
        (1/10, ["Partial institution match: " ++ String.intercalate ", " institutionMatches])
      else
        (-(2/10), ["Institution mismatch - possible different person"])

/-- The X-username cross-reference block of `verifyPersonMatch`: `+0.2` when
the username (with or without `@`) occurs in the result text. -/
def xDelta (resultText : String) (xUsername : Option String) : ℚ × List String :=
  match xUsername with
  | none => (0, [])
  | some xu =>
    if xu = "" then (0, [])
    else if strIncludes resultText (strToLower xu)
        || strIncludes resultText ("@" ++ strToLower xu) then
      (2/10, ["X username match: @" ++ xu])
    else (0, [])

/-- The medical-credentials block of `verifyPersonMatch`: `+0.15` when any
credential marker occurs in the result text. -/
def credDelta (resultText : String) : ℚ × List String :=
  if ["md", "do", "phd", "dr.", "doctor", "physician"].any
      (fun cred => strIncludes resultText cred) then
    (15/100, ["Medical credentials found"])
  else (0, [])

/-- The specialty block of `verifyPersonMatch`: `+0.15` when any specialty
word longer than 3 characters occurs in the result text. -/
def specDelta (resultText : String) (specialty : Option String) : ℚ × List String :=
  match specialty with
  | none => (0, [])
  | some sp =>
    if sp = "" then (0, [])
    else
      let specialtyWords := splitOnSpace (strToLower sp)
      let specialtyMatches := specialtyWords.filter (fun word =>
        decide (3 < word.length) && strIncludes resultText word)
      if 0 < specialtyMatches.length then
        (15/100, ["Specialty match: " ++ String.intercalate ", " specialtyMatches])
      else (0, [])

/-- The general medical-context block of `verifyPersonMatch`: `+0.05` when
any context keyword occurs in the result text. -/
def ctxDelta (resultText : String) : ℚ × List String :=
  let medicalMatches := ["hospital", "clinic", "medical", "health", "university",
    "professor", "research"].filter (fun keyword => strIncludes resultText keyword)
  if 0 < medicalMatches.length then
    (5/100, ["Medical context: " ++ String.intercalate ", " medicalMatches])
  else (0, [])

/-- The final minimum-score gate of `verifyPersonMatch`: scores below `0.3`
are force-rejected to `0`, anything else is clamped above by `1`. -/
def finalGate (score : ℚ) (factors : List String) : ℚ × List String :=
  if score < 3/10 then (0, ["Low confidence - likely different person"])
  else (min score 1, factors)

/-- Everything `verifyPersonMatch` does after the name gate, given the name
score and name factor. -/
def verifyTail (resultText : String) (s0 : ℚ) (f0 : String)
    (specialty institution xUsername : Option String) : ℚ × List String :=
  finalGate
    (s0 + (instDelta resultText institution).1 + (xDelta resultText xUsername).1 +
      (credDelta resultText).1 + (specDelta resultText specialty).1 +
      (ctxDelta resultText).1)
    ([f0] ++ (instDelta resultText institution).2 ++ (xDelta resultText xUsername).2 ++
      (credDelta resultText).2 ++ (specDelta resultText specialty).2 ++
      (ctxDelta resultText).2)

/-- `verifyPersonMatch` from `medical-core.ts`: additive evidence scoring of
a search result against the queried person.  Name-part overlap below 70%
returns score `0` immediately; otherwise institution, X-username,
credential, specialty and context deltas are added and the minimum-score
gate applied. -/
def verifyPersonMatch (result : SearchResult) (name : String)
    (specialty institution xUsername : Option String) : ℚ × List String :=
  let resultText := strToLower (result.title ++ " " ++ result.snippet)
  let nameParts := splitOnSpace (strToLower name)
  let nameMatches := nameParts.filter (fun part =>
    decide (2 < part.length) && strIncludes resultText part)
  if nameMatches.length = nameParts.length then
    verifyTail resultText (4/10)
      ("Complete name match: " ++ String.intercalate ", " nameMatches)
      specialty institution xUsername
  else if ceil7of10 nameParts.length ≤ nameMatches.length then
    verifyTail resultText (2/10)
      ("Partial name match: " ++ String.intercalate ", " nameMatches)
      specialty institution xUsername
  else (0, ["Insufficient name match - likely different person"])

theorem finalGate_fst (score : ℚ) (factors : List String) :
    (finalGate score factors).1 = 0 ∨
      (3/10 ≤ (finalGate score factors).1 ∧ (finalGate score factors).1 ≤ 1) := by
  unfold finalGate
  split
  · exact Or.inl rfl
  · next hge =>
    exact Or.inr ⟨le_min (le_of_not_lt hge) (by norm_num), min_le_right _ _⟩

/-- C4: the verifier's returned score is always either exactly `0` or in the
interval `[0.3, 1]`: it lies in `[0,1]` and anything below the documented
minimum-score gate `0.3` is force-rejected to `0`. -/
theorem verify_score_zero_or_gated (result : SearchResult) (name : String)
    (specialty institution xUsername : Option String) :
    (verifyPersonMatch result name specialty institution xUsername).1 = 0 ∨
      (3/10 ≤ (verifyPersonMatch result name specialty institution xUsername).1 ∧
        (verifyPersonMatch result name specialty institution xUsername).1 ≤ 1) := by
  simp only [verifyPersonMatch]
  split
  · exact finalGate_fst _ _
  · split
    · exact finalGate_fst _ _
    · exact Or.inl rfl

/-- C3: a search result whose text contains no token of the query name is
rejected outright with score `0`, regardless of institution, specialty,
credential or any other factor. -/
theorem verify_rejects_no_name_overlap (result : SearchResult) (name : String)
    (specialty institution xUsername : Option String)
    (h : ∀ part ∈ splitOnSpace (strToLower name),
      strIncludes (strToLower (result.title ++ " " ++ result.snippet)) part = false) :
    (verifyPersonMatch result name specialty institution xUsername).1 = 0 := by
  have hfil : (splitOnSpace (strToLower name)).filter (fun part =>
      decide (2 < part.length) &&
        strIncludes (strToLower (result.title ++ " " ++ result.snippet)) part) = [] := by
    rw [List.filter_eq_nil_iff]
    intro a ha
    rw [h a ha]
    simp
  have hpos : 0 < (splitOnSpace (strToLower name)).length :=
    List.length_pos.mpr (splitOnSpace_ne_nil _)
  have h1 : ¬ (([] : List String).length = (splitOnSpace (strToLower name)).length) := by
    simp only [List.length_nil]
    omega
  have h2 : ¬ (ceil7of10 (splitOnSpace (strToLower name)).length ≤
      ([] : List String).length) := by
    simp only [List.length_nil, ceil7of10, Nat.le_zero]
    omega
  simp only [verifyPersonMatch, hfil, if_neg h1, if_neg h2]

/-- Witness for C3: a result about a different person with matching
institution, specialty, credentials and medical context is still scored 0. -/
theorem verify_rejects_no_name_overlap_witness :
    (∀ part ∈ splitOnSpace (strToLower "Jane Smith"),
      strIncludes (strToLower (("Dr. Quux Zorp - cardiology" : String) ++ " " ++
        "Quux Zorp MD, cardiology, Mayo Clinic hospital research")) part
        = false) ∧
    (verifyPersonMatch
      { title := "Dr. Quux Zorp - cardiology", link := "https://example.com",
        snippet := "Quux Zorp MD, cardiology, Mayo Clinic hospital research" }
      "Jane Smith" (some "cardiology") (some "Mayo Clinic") (some "jdoe")).1 = 0 :=
  ⟨by decide,
   verify_rejects_no_name_overlap
    { title := "Dr. Quux Zorp - cardiology", link := "https://example.com",
      snippet := "Quux Zorp MD, cardiology, Mayo Clinic hospital research" }
    "Jane Smith" (some "cardiology") (some "Mayo Clinic") (some "jdoe") (by decide)⟩

/-! ### Search orchestration (`researchDoctor`): flattening and URL handling -/

/-- `(await Promise.all(searchPromises)).flat()` in `researchDoctor`: the
per-query result lists, flattened. -/
def flattenSearchResults (perQuery : List (List SearchResult)) : List SearchResult :=
  perQuery.flatten

/-- The `sourcesUsed` accumulation in `researchDoctor`: every result link
that is non-empty and not already present is appended. -/
def collectSourcesUsed (results : List SearchResult) : List String :=
  results.foldl
    (fun acc r => if r.link ≠ "" ∧ r.link ∉ acc then acc ++ [r.link] else acc) []

/-- The URLs `researchDoctor` passes to `enhancedWebScrape`/`extractMedicalInfo`:
one per search result occurrence (`searchResults.map(...)`), with no
deduplication. -/
def extractionUrls (results : List SearchResult) : List String :=
  results.map (fun r => r.link)

/-- C6 counterexample: it is not the case that every distinct URL reaches
fetching/extraction at most once — two queries returning the same URL make
`researchDoctor` scrape and extract it twice (only the reported `sources`
list is deduplicated). -/
theorem research_fetches_duplicate_urls :
    ¬ ∀ (perQuery : List (List SearchResult)) (u : String),
        (extractionUrls (flattenSearchResults perQuery)).count u ≤ 1 :=
  fun h =>
    absurd
      (h [[{ title := "A", link := "https://example.com/a", snippet := "x" }],
          [{ title := "B", link := "https://example.com/a", snippet := "y" }]]
        "https://example.com/a")
      (by decide)

theorem collectSourcesUsed_foldl (results : List SearchResult) :
    ∀ acc : List String, acc.Nodup →
      (results.foldl
        (fun acc r => if r.link ≠ "" ∧ r.link ∉ acc then acc ++ [r.link] else acc)
        acc).Nodup ∧
      (∀ u, u ∈ results.foldl
          (fun acc r => if r.link ≠ "" ∧ r.link ∉ acc then acc ++ [r.link] else acc)
          acc ↔ u ∈ acc ∨ (u ≠ "" ∧ u ∈ results.map (fun r => r.link))) := by
  induction results with
  | nil => intro acc hacc; simp [hacc]
  | cons r rs ih =>
    intro acc hacc
    simp only [List.foldl_cons, List.map_cons, List.mem_cons]
    by_cases hc : r.link ≠ "" ∧ r.link ∉ acc
    · rw [if_pos hc]
      have hnd : (acc ++ [r.link]).Nodup := by
        rw [List.nodup_append]
        exact ⟨hacc, List.nodup_singleton _,
          fun a ha hb => hc.2 ((List.mem_singleton.mp hb) ▸ ha)⟩
      obtain ⟨ih1, ih2⟩ := ih (acc ++ [r.link]) hnd
      refine ⟨ih1, fun u => ?_⟩
      rw [ih2 u]
      simp only [List.mem_append, List.mem_singleton]
      constructor
      · rintro ((hu | hu) | ⟨hne, hmem⟩)
        · exact Or.inl hu
        · exact Or.inr ⟨hu ▸ hc.1, Or.inl hu⟩
        · exact Or.inr ⟨hne, Or.inr hmem⟩
      · rintro (hu | ⟨hne, (hu | hu)⟩)
        · exact Or.inl (Or.inl hu)
        · exact Or.inl (Or.inr hu)
        · exact Or.inr ⟨hne, hu⟩
    · rw [if_neg hc]
      obtain ⟨ih1, ih2⟩ := ih acc hacc
      refine ⟨ih1, fun u => ?_⟩
      rw [ih2 u]
      constructor
      · rintro (hu | ⟨hne, hmem⟩)
        · exact Or.inl hu
        · exact Or.inr ⟨hne, Or.inr hmem⟩
      · rintro (hu | ⟨hne, (hu | hu)⟩)
        · exact Or.inl hu
        · subst hu
          rcases not_and_or.mp hc with hx | hx
          · exact absurd hne (by simpa using hx)
          · exact Or.inl (by simpa using hx)
        · exact Or.inr ⟨hne, hu⟩

/-- C6 amended: `researchDoctor` flattens the per-query lists, and URL
deduplication (first occurrence kept, empty links dropped) is applied only
to the reported `sources` list; fetching/extraction runs once per search
result occurrence, so a URL appearing in several results is processed that
many times. -/
theorem research_flatten_dedup_sources_only (perQuery : List (List SearchResult)) :
    (collectSourcesUsed (flattenSearchResults perQuery)).Nodup ∧
    (∀ u, u ∈ collectSourcesUsed (flattenSearchResults perQuery) ↔
      (u ≠ "" ∧ u ∈ (flattenSearchResults perQuery).map (fun r => r.link))) ∧
    (∀ u : String, (extractionUrls (flattenSearchResults perQuery)).count u =
      ((flattenSearchResults perQuery).map (fun r => r.link)).count u) := by
  obtain ⟨h1, h2⟩ := collectSourcesUsed_foldl (flattenSearchResults perQuery) [] (by simp)
  refine ⟨h1, fun u => ?_, fun u => rfl⟩
  rw [collectSourcesUsed, h2 u]
  simp

/-! ### Extraction adapter (`extractMedicalInfo`) -/

/-- The doctor query (`DoctorQuery` in `medical-schemas.ts`). -/
structure DoctorQuery where
  name : String
  specialty : String
  location_hint : Option String
  institution_hint : Option String
deriving DecidableEq, Repr

/-- JavaScript `s.substring(0, n)`. -/
def strTake (s : String) (n : Nat) : String :=
  String.mk (s.data.take n)

/-- The hardcoded URL-domain → institution table of `extractWorkplaceFromUrl`. -/
def institutionPatterns : List (String × String) :=
  [("mskcc.org", "Memorial Sloan Kettering Cancer Center"),
   ("mayoclinic.org", "Mayo Clinic"),
   ("clevelandclinic.org", "Cleveland Clinic"),
   ("johnshopkins.edu", "Johns Hopkins"),
   ("cancer.osu.edu", "Ohio State University Comprehensive Cancer Center"),
   ("osu.edu", "Ohio State University"),
   ("geisinger.edu", "Geisinger Health System"),
   ("jeffersonhealth.org", "Jefferson Health"),
   ("upmc.edu", "University of Pittsburgh Medical Center"),
   ("pennmedicine.org", "Penn Medicine"),
   ("mountsinai.org", "Mount Sinai Health System"),
   ("nyulangone.org", "NYU Langone Health"),
   ("brighamandwomens.org", "Brigham and Women's Hospital"),
   ("massgeneral.org", "Massachusetts General Hospital"),
   ("stanfordhealthcare.org", "Stanford Healthcare"),
   ("uclahealth.org", "UCLA Health"),
   ("cedars-sinai.org", "Cedars-Sinai Medical Center"),
   ("tuftsmedicine.org", "Tufts Medical Center"),
   ("tuftsmedicalcenter.org", "Tufts Medical Center"),
   ("tufts.edu", "Tufts University"),
   ("mdanderson.org", "The University of Texas MD Anderson Cancer Center"),
   ("cityofhope.org", "City of Hope Comprehensive Cancer Center"),
   ("dana-farber.org", "Dana-Farber Cancer Institute"),
   ("cancer.gov", "National Cancer Institute"),
   ("radiationoncologyassociates.com", "Radiation Oncology Associates"),
   ("oklahomaproton.com", "Oklahoma Proton Center"),
   ("protonradiationoncology.com", "Oklahoma Proton Center")]

/-- The hardcoded URL-domain → location table of `extractLocationFromUrl`. -/
def locationPatterns : List (String × String) :=
  [("mskcc.org", "New York, NY"),
   ("mayoclinic.org", "Rochester, MN"),
   ("clevelandclinic.org", "Cleveland, OH"),
   ("johnshopkins.edu", "Baltimore, MD"),
   ("cancer.osu.edu", "Columbus, OH"),
   ("osu.edu", "Columbus, OH"),
   ("geisinger.edu", "Danville, PA"),
   ("jeffersonhealth.org", "Philadelphia, PA"),
   ("upmc.edu", "Pittsburgh, PA"),
   ("pennmedicine.org", "Philadelphia, PA"),
   ("mountsinai.org", "New York, NY"),
   ("nyulangone.org", "New York, NY"),
   ("brighamandwomens.org", "Boston, MA"),
   ("massgeneral.org", "Boston, MA"),
   ("stanfordhealthcare.org", "Stanford, CA"),
   ("uclahealth.org", "Los Angeles, CA"),
   ("cedars-sinai.org", "Los Angeles, CA"),
   ("tuftsmedicine.org", "Boston, MA"),
   ("tuftsmedicalcenter.org", "Boston, MA"),
   ("tufts.edu", "Boston, MA"),
   ("mdanderson.org", "Houston, TX"),
   ("cityofhope.org", "Duarte, CA"),
   ("dana-farber.org", "Dana-Farber Cancer Institute"),
   ("cancer.gov", "Bethesda, MD"),
   ("radiationoncologyassociates.com", "Boston, MA"),
   ("oklahomaproton.com", "Oklahoma City, OK"),
   ("protonradiationoncology.com", "Oklahoma City, OK")]

/-- `extractWorkplaceFromUrl`: the first table entry whose pattern occurs in
the lowercased URL. -/
def extractWorkplaceFromUrl (url : String) : Option String :=
  (institutionPatterns.find? (fun p => strIncludes (strToLower url) p.1)).map
    (fun p => p.2)

/-- `extractLocationFromUrl`. -/
def extractLocationFromUrl (url : String) : Option String :=
  (locationPatterns.find? (fun p => strIncludes (strToLower url) p.1)).map
    (fun p => p.2)

/-- The name pre-filter inside `extractMedicalInfo`: true exactly when the
extracted name has no first-name, last-name, full-name or 4-character-prefix
overlap with the query name (the case in which the adapter returns `null`). -/
def nameMatchFails (queryName extractedRaw : String) : Bool :=
  !(strIncludes (strToLower extractedRaw)
      ((splitOnSpace (strToLower queryName)).headD "")) &&
  !(strIncludes (strToLower extractedRaw)
      ((splitOnSpace (strToLower queryName)).getLastD "")) &&
  !(strIncludes (strToLower extractedRaw) (strToLower queryName) ||
    strIncludes (strToLower queryName) (strToLower extractedRaw)) &&
  !(decide (3 < ((splitOnSpace (strToLower queryName)).headD "").length) &&
    strIncludes (strToLower extractedRaw)
      (strTake ((splitOnSpace (strToLower queryName)).headD "") 4))

/-- A workplace or location value the code treats as absent when deciding to
fall back to the URL tables. -/
def fieldAbsent (s : String) : Prop :=
  s = "Not found" ∨ s = "Not specified" ∨ s = ""

instance (s : String) : Decidable (fieldAbsent s) :=
  inferInstanceAs (Decidable (s = "Not found" ∨ s = "Not specified" ∨ s = ""))

/-- `extractMedicalInfo` from `medical-core.ts`, given the collaborator's raw
output `raw` for `(content, url, q)`: the content-length guard, the
name-overlap pre-filter, the URL-table fallbacks for missing
workplace/location, and the short-content known-institution boost.  When no
usable name was extracted, the source's URL-only fallback path reassigns the
`const extraction` binding, so at runtime it throws a TypeError that the
surrounding catch converts to `null`: that branch always yields `none`. -/
def extractMedicalInfo (content url : String) (q : DoctorQuery)
    (raw : MedicalExtraction) : Option MedicalExtraction :=
  if content.length < 50 then none
  else if raw.doctor_name ≠ "" ∧ raw.doctor_name ≠ "Not found" then
    if nameMatchFails q.name raw.doctor_name then none
    else
      let wp := if fieldAbsent raw.workplace then
          (extractWorkplaceFromUrl url).getD raw.workplace
        else raw.workplace
      let loc := if fieldAbsent raw.location then
          (extractLocationFromUrl url).getD raw.location
        else raw.location
      if content.length < 200 then
        match extractWorkplaceFromUrl url, extractLocationFromUrl url with
        | some uw, some ul =>
          some { doctor_name := if raw.doctor_name ≠ "" then raw.doctor_name else q.name,
                 specialty := if raw.specialty ≠ "" then raw.specialty else q.specialty,
                 workplace := uw, location := ul,
                 confidence := max (7/10) raw.confidence,
                 source_type := "institutional_profile" }
        | _, _ => some { raw with workplace := wp, location := loc }
      else some { raw with workplace := wp, location := loc }
  else none

/-- C7 counterexample: with identical content, URL and collaborator output,
changing only the query name flips the adapter's accept-or-null decision —
the adapter does perform identity judgment. -/
theorem extract_adapter_judges_identity :
    extractMedicalInfo
      "This page mentions the doctor profile and affiliation details herein."
      "https://example.com/profile"
      { name := "John Smith", specialty := "Cardiology",
        location_hint := none, institution_hint := none }
      { doctor_name := "John Smith", specialty := "Cardiology",
        location := "Boston, MA", workplace := "General Hospital",
        confidence := 8/10, source_type := "hospital_website" } =
      some { doctor_name := "John Smith", specialty := "Cardiology",
             location := "Boston, MA", workplace := "General Hospital",
             confidence := 8/10, source_type := "hospital_website" } ∧
    extractMedicalInfo
      "This page mentions the doctor profile and affiliation details herein."
      "https://example.com/profile"
      { name := "Zzzz Qqqq", specialty := "Cardiology",
        location_hint := none, institution_hint := none }
      { doctor_name := "John Smith", specialty := "Cardiology",
        location := "Boston, MA", workplace := "General Hospital",
        confidence := 8/10, source_type := "hospital_website" } = none := by
  constructor
  · with_unfolding_all decide
  · with_unfolding_all decide

/-- C7 amended: the adapter normalizes, but it also enforces an identity
gate: whenever the collaborator extracted a usable name (non-empty and not
the sentinel) that shares no first/last/full-name or 4-character-prefix
overlap with the query name, it returns `null` regardless of content, URL
and all other fields. -/
theorem extract_rejects_on_name_mismatch (content url : String) (q : DoctorQuery)
    (raw : MedicalExtraction) (hlen : 50 ≤ content.length)
    (hne : raw.doctor_name ≠ "") (hnf : raw.doctor_name ≠ "Not found")
    (hgate : nameMatchFails q.name raw.doctor_name = true) :
    extractMedicalInfo content url q raw = none := by
  have h50 : ¬ (content.length < 50) := by omega
  unfold extractMedicalInfo
  rw [if_neg h50, if_pos (And.intro hne hnf), hgate]
  simp

/-- Witness for the amended C7. -/
theorem extract_rejects_on_name_mismatch_witness :
    50 ≤ ("This page mentions the doctor profile and affiliation details herein." :
      String).length ∧
    nameMatchFails "Zzzz Qqqq" "John Smith" = true ∧
    extractMedicalInfo
      "This page mentions the doctor profile and affiliation details herein."
      "https://example.com/profile"
      { name := "Zzzz Qqqq", specialty := "Cardiology",
        location_hint := none, institution_hint := none }
      { doctor_name := "John Smith", specialty := "Cardiology",
        location := "Boston, MA", workplace := "General Hospital",
        confidence := 8/10, source_type := "hospital_website" } = none :=
  ⟨by decide, by decide,
   extract_rejects_on_name_mismatch _ _
    { name := "Zzzz Qqqq", specialty := "Cardiology",
      location_hint := none, institution_hint := none }
    { doctor_name := "John Smith", specialty := "Cardiology",
      location := "Boston, MA", workplace := "General Hospital",
      confidence := 8/10, source_type := "hospital_website" }
    (by decide) (by decide) (by decide) (by decide)⟩

/-! ### NPI registry lookup (`lookupNPI`) -/

/-- One address object in an NPI registry result; absent JSON fields are
modelled as the empty string (the code coalesces them with `||`). -/
structure NPIAddress where
  address_purpose : String
  address_1 : String
  address_2 : String
  city : String
  state : String
  postal_code : String
  telephone_number : String
deriving DecidableEq, Repr

/-- One taxonomy object in an NPI registry result. -/
structure NPITaxonomy where
  primary : Bool
  desc : String
deriving DecidableEq, Repr

/-- The `basic` object of an NPI registry result. -/
structure NPIBasic where
  first_name : String
  last_name : String
  credential : String
  enumeration_date : String
  last_updated : String
  status : String
deriving DecidableEq, Repr

/-- One result object returned by the NPI registry API. -/
structure NPIApiResult where
  number : String
  enumeration_type : String
  basic : NPIBasic
  addresses : List NPIAddress
  taxonomies : List NPITaxonomy
deriving DecidableEq, Repr

/-- The registry's observable behaviour for one request: either a failure
(non-OK HTTP status, network error, malformed JSON — everything the
`try/catch` converts into the error record) or a successful response with a
result list. -/
inductive NPIResponse where
  | failure
  | ok (results : List NPIApiResult)
deriving DecidableEq, Repr

/-- The NPI lookup query (`NPIQuery` in `medical-schemas.ts`). -/
structure NPIQuery where
  first_name : String
  last_name : String
  state : Option String
  city : Option String
  specialty : Option String
deriving DecidableEq, Repr

/-- The `NPIInfo` record built by `lookupNPI`; `mailing_address` and `phone`
are optional because the not-found and error records omit them. -/
structure NPIInfo where
  npi_number : String
  name : String
  specialty : String
  practice_address : String
  mailing_address : Option String
  phone : Option String
  enumeration_date : String
  last_updated : String
  status : String
  entity_type : String
  sources : List String
  confidence_score : ℚ
deriving DecidableEq, Repr

/-- `formatAddress` inside `lookupNPI`: join the non-empty address parts
with `", "`; `"Not found"` for a missing address object. -/
def formatAddress : Option NPIAddress → String
  | none => "Not found"
  | some addr =>
    String.intercalate ", "
      ([addr.address_1, addr.address_2, addr.city, addr.state,
        addr.postal_code].filter (fun p => p ≠ ""))

/-- `lookupNPI` from `medical-core.ts` as a function of the query, the
request URL it constructed, the current timestamp and the registry's
behaviour.  Total by construction: every response shape yields a record. -/
def lookupNPI (q : NPIQuery) (apiUrl now : String) : NPIResponse → NPIInfo
  | .failure =>
    { npi_number := "Error", name := q.first_name ++ " " ++ q.last_name,
      specialty := "Error during lookup",
      practice_address := "Error during lookup",
      mailing_address := none, phone := none,
      enumeration_date := "Error during lookup", last_updated := now,
      status := "Error", entity_type := "Individual Provider", sources := [],
      confidence_score := 0 }
  | .ok [] =>
    { npi_number := "Not found", name := q.first_name ++ " " ++ q.last_name,
      specialty := "Not found", practice_address := "Not found",
      mailing_address := none, phone := none,
      enumeration_date := "Not found", last_updated := now,
      status := "Not found", entity_type := "Individual Provider",
      sources := [apiUrl], confidence_score := 0 }
  | .ok (result :: _) =>
    let practiceAddress :=
      (result.addresses.find? (fun a => a.address_purpose == "LOCATION")).orElse
        (fun _ => result.addresses.head?)
    let mailingAddress :=
      result.addresses.find? (fun a => a.address_purpose == "MAILING")
    let primaryTaxonomy :=
      (result.taxonomies.find? (fun t => t.primary)).orElse
        (fun _ => result.taxonomies.head?)
    let fullName := strTrim (result.basic.first_name ++ " " ++ result.basic.last_name)
    { npi_number := if result.number ≠ "" then result.number else "Not found",
      name := if result.basic.credential ≠ "" then
          fullName ++ ", " ++ result.basic.credential
        else fullName,
      specialty := match primaryTaxonomy with
        | some t => if t.desc ≠ "" then t.desc else "Not specified"
        | none => "Not specified",
      practice_address := formatAddress practiceAddress,
      mailing_address := some (formatAddress mailingAddress),
      phone := some (match practiceAddress with
        | some a => if a.telephone_number ≠ "" then a.telephone_number else "Not found"
        | none => "Not found"),
      enumeration_date := if result.basic.enumeration_date ≠ "" then
          result.basic.enumeration_date
        else "Not found",
      last_updated := if result.basic.last_updated ≠ "" then
          result.basic.last_updated
        else now,
      status := if result.basic.status ≠ "" then result.basic.status else "Active",
      entity_type := if result.enumeration_type == "NPI-1" then
          "Individual Provider"
        else "Organizational Provider",
      sources := [apiUrl],
      confidence_score := 9/10 }

/-- C9: `lookupNPI` is total over registry behaviour.  On failure it returns
the zero-confidence record with the `"Error"` sentinel; on an empty result
list the zero-confidence record with the `"Not found"` sentinel; on any
non-empty result list it returns confidence exactly `0.9` built solely from
the first result (the record does not depend on the remaining results). -/
theorem lookupNPI_total_and_calibrated (q : NPIQuery) (apiUrl now : String) :
    (lookupNPI q apiUrl now .failure).confidence_score = 0 ∧
    (lookupNPI q apiUrl now .failure).npi_number = "Error" ∧
    (lookupNPI q apiUrl now .failure).sources = [] ∧
    (lookupNPI q apiUrl now (.ok [])).confidence_score = 0 ∧
    (lookupNPI q apiUrl now (.ok [])).npi_number = "Not found" ∧
    (lookupNPI q apiUrl now (.ok [])).practice_address = "Not found" ∧
    ∀ (r : NPIApiResult) (rest : List NPIApiResult),
      (lookupNPI q apiUrl now (.ok (r :: rest))).confidence_score = 9/10 ∧
      (lookupNPI q apiUrl now (.ok (r :: rest))).npi_number =
        (if r.number ≠ "" then r.number else "Not found") ∧
      lookupNPI q apiUrl now (.ok (r :: rest)) = lookupNPI q apiUrl now (.ok [r]) :=
  ⟨rfl, rfl, rfl, rfl, rfl, rfl, fun _ _ => ⟨rfl, rfl, rfl⟩⟩

/-! ### Progressive NPI narrowing (`searchNPIProgressive` + `handleNPILookup`)

The registry itself is external.  Modelled from the spec (§6): the registry
contract `query(filters) -> {resultCount, results}` is realised as a
conjunctive filter over a fixed provider dataset. -/

/-- Modelled from the spec: one provider record of the registry dataset,
with the fields the code filters on. -/
structure NPIRecord where
  first_name : String
  last_name : String
  state : String
  city : String
  specialty : String
deriving DecidableEq, Repr

/-- JavaScript truthiness of an optional string parameter:
`searchNPIProgressive` appends a filter only when the argument is present
and non-empty. -/
def normFilter : Option String → Option String
  | none => none
  | some s => if s = "" then none else some s

/-- Modelled from the spec: the registry matches a record against the
submitted filters conjunctively; `searchNPIProgressive` uppercases the state
value before submitting it. -/
def npiMatches (first last : String) (state city specialty : Option String)
    (r : NPIRecord) : Bool :=
  r.first_name == first && r.last_name == last &&
  (match state with | none => true | some s => r.state == strToUpper s) &&
  (match city with | none => true | some c => r.city == c) &&
  (match specialty with | none => true | some sp => r.specialty == sp)

/-- `searchNPIProgressive` against the modelled registry: the result list
(capped at the request limit of 50) and the total result count. -/
def searchNPIProgressive (db : List NPIRecord) (first last : String)
    (state city specialty : Option String) : List NPIRecord × Nat :=
  ((db.filter (npiMatches first last (normFilter state) (normFilter city)
      (normFilter specialty))).take 50,
   (db.filter (npiMatches first last (normFilter state) (normFilter city)
      (normFilter specialty))).length)

/-- The initial name-only query of `handleNPILookup` (step 2). -/
def npiQ1 (db : List NPIRecord) (firstIn lastIn : String) : List NPIRecord × Nat :=
  searchNPIProgressive db (strTrim firstIn) (strTrim lastIn) none none none

/-- Whether `handleNPILookup` re-queries with the state filter: more than 10
capped results and a non-blank state answer. -/
def npiDoState (db : List NPIRecord) (firstIn lastIn stateIn : String) : Prop :=
  10 < (npiQ1 db firstIn lastIn).1.length ∧ strTrim stateIn ≠ ""

instance (db : List NPIRecord) (firstIn lastIn stateIn : String) :
    Decidable (npiDoState db firstIn lastIn stateIn) :=
  inferInstanceAs (Decidable
    (10 < (npiQ1 db firstIn lastIn).1.length ∧ strTrim stateIn ≠ ""))

/-- The `state` variable of `handleNPILookup` as later steps see it: the raw
(untrimmed) answer when the state question was asked, absent otherwise. -/
def npiStateVar (db : List NPIRecord) (firstIn lastIn stateIn : String) :
    Option String :=
  if 10 < (npiQ1 db firstIn lastIn).1.length then some stateIn else none

/-- The search state after the optional state refinement (step re-query uses
the trimmed answer). -/
def npiQ2 (db : List NPIRecord) (firstIn lastIn stateIn : String) :
    List NPIRecord × Nat :=
  if npiDoState db firstIn lastIn stateIn then
    searchNPIProgressive db (strTrim firstIn) (strTrim lastIn)
      (some (strTrim stateIn)) none none
  else npiQ1 db firstIn lastIn

/-- Whether `handleNPILookup` re-queries with the city filter. -/
def npiDoCity (db : List NPIRecord) (firstIn lastIn stateIn cityIn : String) : Prop :=
  5 < (npiQ2 db firstIn lastIn stateIn).1.length ∧ strTrim cityIn ≠ ""

instance (db : List NPIRecord) (firstIn lastIn stateIn cityIn : String) :
    Decidable (npiDoCity db firstIn lastIn stateIn cityIn) :=
  inferInstanceAs (Decidable
    (5 < (npiQ2 db firstIn lastIn stateIn).1.length ∧ strTrim cityIn ≠ ""))

/-- The `city` variable of `handleNPILookup` as the specialty step sees it. -/
def npiCityVar (db : List NPIRecord) (firstIn lastIn stateIn cityIn : String) :
    Option String :=
  if 5 < (npiQ2 db firstIn lastIn stateIn).1.length then some cityIn else none

/-- The search state after the optional city refinement (the city answer is
trimmed here, while the `state` variable is passed through untrimmed). -/
def npiQ3 (db : List NPIRecord) (firstIn lastIn stateIn cityIn : String) :
    List NPIRecord × Nat :=
  if npiDoCity db firstIn lastIn stateIn cityIn then
    searchNPIProgressive db (strTrim firstIn) (strTrim lastIn)
      (npiStateVar db firstIn lastIn stateIn) (some (strTrim cityIn)) none
  else npiQ2 db firstIn lastIn stateIn

/-- Whether `handleNPILookup` re-queries with the specialty filter. -/
def npiDoSpec (db : List NPIRecord)
    (firstIn lastIn stateIn cityIn specIn : String) : Prop :=
  3 < (npiQ3 db firstIn lastIn stateIn cityIn).1.length ∧ strTrim specIn ≠ ""

instance (db : List NPIRecord) (firstIn lastIn stateIn cityIn specIn : String) :
    Decidable (npiDoSpec db firstIn lastIn stateIn cityIn specIn) :=
  inferInstanceAs (Decidable
    (3 < (npiQ3 db firstIn lastIn stateIn cityIn).1.length ∧ strTrim specIn ≠ ""))

/-- The search state after the optional specialty refinement (`state` and
`city` passed through untrimmed). -/
def npiQ4 (db : List NPIRecord) (firstIn lastIn stateIn cityIn specIn : String) :
    List NPIRecord × Nat :=
  if npiDoSpec db firstIn lastIn stateIn cityIn specIn then
    searchNPIProgressive db (strTrim firstIn) (strTrim lastIn)
      (npiStateVar db firstIn lastIn stateIn)
      (npiCityVar db firstIn lastIn stateIn cityIn)
      (some (strTrim specIn))
  else npiQ3 db firstIn lastIn stateIn cityIn

/-- The sequence of registry result counts reported across the refinement
steps of one `handleNPILookup` session (a zero initial count ends the
session immediately). -/
def npiSessionCounts (db : List NPIRecord)
    (firstIn lastIn stateIn cityIn specIn : String) : List Nat :=
  if (npiQ1 db firstIn lastIn).2 = 0 then [(npiQ1 db firstIn lastIn).2]
  else
    [(npiQ1 db firstIn lastIn).2] ++
    (if npiDoState db firstIn lastIn stateIn then
      [(npiQ2 db firstIn lastIn stateIn).2] else []) ++
    (if npiDoCity db firstIn lastIn stateIn cityIn then
      [(npiQ3 db firstIn lastIn stateIn cityIn).2] else []) ++
    (if npiDoSpec db firstIn lastIn stateIn cityIn specIn then
      [(npiQ4 db firstIn lastIn stateIn cityIn specIn).2] else [])

theorem length_filter_mono {α : Type} {p q : α → Bool}
    (h : ∀ a, p a = true → q a = true) :
    ∀ l : List α, (l.filter p).length ≤ (l.filter q).length := by
  intro l
  induction l with
  | nil => simp
  | cons a as ih =>
    simp only [List.filter_cons]
    cases hp : p a with
    | true =>
      rw [h a hp]
      simpa using Nat.succ_le_succ ih
    | false =>
      cases hq : q a with
      | true =>
        simp only [if_true, if_false, List.length_cons]
        exact Nat.le_succ_of_le ih
      | false => simpa using ih

/-- `o₁` imposes no more constraint than `o₂` after JavaScript-falsy
normalization. -/
def coarser (o₁ o₂ : Option String) : Prop :=
  normFilter o₁ = none ∨ normFilter o₁ = normFilter o₂

theorem coarser_none (o : Option String) : coarser none o := Or.inl rfl

theorem coarser_refl (o : Option String) : coarser o o := Or.inr rfl

theorem npiMatches_imp {first last : String} {s₁ c₁ sp₁ s₂ c₂ sp₂ : Option String}
    (hs : s₁ = none ∨ s₁ = s₂) (hc : c₁ = none ∨ c₁ = c₂)
    (hsp : sp₁ = none ∨ sp₁ = sp₂) (r : NPIRecord) :
    npiMatches first last s₂ c₂ sp₂ r = true →
      npiMatches first last s₁ c₁ sp₁ r = true := by
  simp only [npiMatches, Bool.and_eq_true]
  rintro ⟨⟨⟨⟨hf, hl⟩, hst⟩, hct⟩, hspt⟩
  refine ⟨⟨⟨⟨hf, hl⟩, ?_⟩, ?_⟩, ?_⟩
  · rcases hs with rfl | rfl
    · rfl
    · exact hst
  · rcases hc with rfl | rfl
    · rfl
    · exact hct
  · rcases hsp with rfl | rfl
    · rfl
    · exact hspt

theorem searchCount_mono (db : List NPIRecord) (first last : String)
    {s₁ c₁ sp₁ s₂ c₂ sp₂ : Option String}
    (hs : coarser s₁ s₂) (hc : coarser c₁ c₂) (hsp : coarser sp₁ sp₂) :
    (searchNPIProgressive db first last s₂ c₂ sp₂).2 ≤
      (searchNPIProgressive db first last s₁ c₁ sp₁).2 :=
  length_filter_mono (fun r => npiMatches_imp hs hc hsp r) db

/-- C8 amended: in every disambiguation session whose interactive state and
city answers carry no surrounding whitespace, the sequence of registry
result counts across the successive refinement steps is monotonically
non-increasing (each step then only adds filters to the previous step's
set).  Without that restriction the invariant fails: the code trims an
answer at the step that first applies it but passes the raw variable to
later re-queries, so a padded answer changes the submitted filter value
mid-session. -/
theorem npiSession_counts_monotone (db : List NPIRecord)
    (firstIn lastIn stateIn cityIn specIn : String)
    (hstate : strTrim stateIn = stateIn) (hcity : strTrim cityIn = cityIn) :
    List.Chain' (fun a b => b ≤ a)
      (npiSessionCounts db firstIn lastIn stateIn cityIn specIn) := by
  have hcoarseState : npiDoState db firstIn lastIn stateIn →
      coarser (some (strTrim stateIn)) (npiStateVar db firstIn lastIn stateIn) := by
    intro h
    unfold npiStateVar
    rw [if_pos h.1, hstate]
    exact coarser_refl _
  have hcoarseCity : npiDoCity db firstIn lastIn stateIn cityIn →
      coarser (some (strTrim cityIn)) (npiCityVar db firstIn lastIn stateIn cityIn) := by
    intro h
    unfold npiCityVar
    rw [if_pos h.1, hcity]
    exact coarser_refl _
  have f21 : (npiQ2 db firstIn lastIn stateIn).2 ≤ (npiQ1 db firstIn lastIn).2 := by
    unfold npiQ2
    split
    · exact searchCount_mono db _ _ (coarser_none _) (coarser_none _) (coarser_none _)
    · exact le_refl _
  have f32 : (npiQ3 db firstIn lastIn stateIn cityIn).2 ≤
      (npiQ2 db firstIn lastIn stateIn).2 := by
    unfold npiQ3
    split
    · next hdc =>
      unfold npiQ2
      split
      · next hds =>
        exact searchCount_mono db _ _ (hcoarseState hds) (coarser_none _) (coarser_none _)
      · exact searchCount_mono db _ _ (coarser_none _) (coarser_none _) (coarser_none _)
    · exact le_refl _
  have f43 : (npiQ4 db firstIn lastIn stateIn cityIn specIn).2 ≤
      (npiQ3 db firstIn lastIn stateIn cityIn).2 := by
    unfold npiQ4
    split
    · next hsp =>
      unfold npiQ3
      split
      · next hdc =>
        exact searchCount_mono db _ _ (coarser_refl _) (hcoarseCity hdc) (coarser_none _)
      · unfold npiQ2
        split
        · next hds =>
          exact searchCount_mono db _ _ (hcoarseState hds) (coarser_none _) (coarser_none _)
        · exact searchCount_mono db _ _ (coarser_none _) (coarser_none _) (coarser_none _)
    · exact le_refl _
  have g31 := f32.trans f21
  have g42 := f43.trans f32
  have g41 := g42.trans f21
  unfold npiSessionCounts
  split
  · exact List.chain'_singleton _
  · by_cases hds : npiDoState db firstIn lastIn stateIn <;>
    by_cases hdc : npiDoCity db firstIn lastIn stateIn cityIn <;>
    by_cases hsp : npiDoSpec db firstIn lastIn stateIn cityIn specIn <;>
    simp only [hds, hdc, hsp, if_true, if_false, if_pos, if_neg, not_false_iff,
      List.append_nil, List.nil_append, List.cons_append, List.singleton_append,
      List.chain'_cons, List.chain'_singleton, and_true] <;>
    first
      | exact ⟨f21, f32, f43⟩
      | exact ⟨f21, f32⟩
      | exact ⟨f21, g42⟩
      | exact ⟨g31, f43⟩
      | exact f21
      | exact g31
      | exact g41

/-- Witness for the amended C8 at a concrete dataset and trimmed inputs. -/
theorem npiSession_counts_monotone_witness :
    List.Chain' (fun a b => b ≤ a)
      (npiSessionCounts
        [{ first_name := "John", last_name := "Smith", state := "CA",
           city := "Los Angeles", specialty := "Cardiology" }]
        "John" "Smith" "CA" "Los Angeles" "Cardiology") :=
  npiSession_counts_monotone _ _ _ _ _ _ (by decide) (by decide)

/-- C8 counterexample: with a whitespace-padded state answer `" ca"`, the
state re-query filters on the trimmed, uppercased value `"CA"`, but the
later city re-query resubmits the raw variable, filtering on `" CA"` — a
different value, not a refinement — so the count sequence `[13, 6, 7]`
increases at the last step and the claimed invariant fails as stated. -/
theorem npiSession_counts_counterexample :
    npiSessionCounts
      [{ first_name := "j", last_name := "s", state := "CA", city := "", specialty := "s1" },
       { first_name := "j", last_name := "s", state := "CA", city := "", specialty := "s2" },
       { first_name := "j", last_name := "s", state := "CA", city := "", specialty := "s3" },
       { first_name := "j", last_name := "s", state := "CA", city := "", specialty := "s4" },
       { first_name := "j", last_name := "s", state := "CA", city := "", specialty := "s5" },
       { first_name := "j", last_name := "s", state := "CA", city := "", specialty := "s6" },
       { first_name := "j", last_name := "s", state := " CA", city := "x", specialty := "s7" },
       { first_name := "j", last_name := "s", state := " CA", city := "x", specialty := "s8" },
       { first_name := "j", last_name := "s", state := " CA", city := "x", specialty := "s9" },
       { first_name := "j", last_name := "s", state := " CA", city := "x", specialty := "s10" },
       { first_name := "j", last_name := "s", state := " CA", city := "x", specialty := "s11" },
       { first_name := "j", last_name := "s", state := " CA", city := "x", specialty := "s12" },
       { first_name := "j", last_name := "s", state := " CA", city := "x", specialty := "s13" }]
      "j" "s" " ca" "x" "" = [13, 6, 7] ∧
    ¬ List.Chain' (fun a b => b ≤ a)
      (npiSessionCounts
        [{ first_name := "j", last_name := "s", state := "CA", city := "", specialty := "s1" },
         { first_name := "j", last_name := "s", state := "CA", city := "", specialty := "s2" },
         { first_name := "j", last_name := "s", state := "CA", city := "", specialty := "s3" },
         { first_name := "j", last_name := "s", state := "CA", city := "", specialty := "s4" },
         { first_name := "j", last_name := "s", state := "CA", city := "", specialty := "s5" },
         { first_name := "j", last_name := "s", state := "CA", city := "", specialty := "s6" },
         { first_name := "j", last_name := "s", state := " CA", city := "x", specialty := "s7" },
         { first_name := "j", last_name := "s", state := " CA", city := "x", specialty := "s8" },
         { first_name := "j", last_name := "s", state := " CA", city := "x", specialty := "s9" },
         { first_name := "j", last_name := "s", state := " CA", city := "x", specialty := "s10" },
         { first_name := "j", last_name := "s", state := " CA", city := "x", specialty := "s11" },
         { first_name := "j", last_name := "s", state := " CA", city := "x", specialty := "s12" },
         { first_name := "j", last_name := "s", state := " CA", city := "x", specialty := "s13" }]
        "j" "s" " ca" "x" "") := by
  have heq : npiSessionCounts
      [{ first_name := "j", last_name := "s", state := "CA", city := "", specialty := "s1" },
       { first_name := "j", last_name := "s", state := "CA", city := "", specialty := "s2" },
       { first_name := "j", last_name := "s", state := "CA", city := "", specialty := "s3" },
       { first_name := "j", last_name := "s", state := "CA", city := "", specialty := "s4" },
       { first_name := "j", last_name := "s", state := "CA", city := "", specialty := "s5" },
       { first_name := "j", last_name := "s", state := "CA", city := "", specialty := "s6" },
       { first_name := "j", last_name := "s", state := " CA", city := "x", specialty := "s7" },
       { first_name := "j", last_name := "s", state := " CA", city := "x", specialty := "s8" },
       { first_name := "j", last_name := "s", state := " CA", city := "x", specialty := "s9" },
       { first_name := "j", last_name := "s", state := " CA", city := "x", specialty := "s10" },
       { first_name := "j", last_name := "s", state := " CA", city := "x", specialty := "s11" },
       { first_name := "j", last_name := "s", state := " CA", city := "x", specialty := "s12" },
       { first_name := "j", last_name := "s", state := " CA", city := "x", specialty := "s13" }]
      "j" "s" " ca" "x" "" = [13, 6, 7] := by decide
  refine ⟨heq, fun hch => ?_⟩
  rw [heq] at hch
  have h76 : (7 : Nat) ≤ 6 := (List.chain'_cons.mp (List.chain'_cons.mp hch).2).1
  omega

end MedicalResearch
